import Mathlib

/-!
Shallow embedding of the Windows event-loop core (`src/deps/uv/src/win/core.c`)
of the libuv reactor bundled with this repository, together with proofs of the
specification claims about it.

The embedding mirrors the source:
* `LoopState` carries the fields of `uv_loop_t` that this file touches; the C
  linked lists (`pending_reqs_tail`, `endgame_handles`, the phase lists) are
  rendered as Lean lists, where the empty list stands for a `NULL` head.
* Callbacks and helper routines that live outside `core.c`
  (`uv_update_time`, `uv_process_timers`, `uv_idle_invoke`, `uv_process_reqs`,
  `uv_process_endgames`, `uv_prepare_invoke`, `uv_check_invoke`,
  `uv_get_poll_timeout`, `uv_overlapped_to_req`) are external collaborators:
  they are parameters of the model (the `Hooks` record), so every theorem
  quantifies over all behaviors of the registered callbacks.
* The OS completion substrate (`GetQueuedCompletionStatus` and
  `pGetQueuedCompletionStatusEx`) is a parameter mapping the timeout passed to
  the call to an outcome.
* Fatal escalation (`uv_fatal_error`) is modelled with `Except`: an `.error`
  result carries the OS error code and the name of the failing operation, and
  means the process terminated.
-/

/-- An I/O request (`uv_req_t*`). Only identity matters at this level. -/
structure Req where
  id : Nat
deriving DecidableEq

/-- A handle registered with the loop (`uv_handle_t*`). -/
structure Handle where
  id : Nat
deriving DecidableEq

/-- An `OVERLAPPED*` pointer dequeued from the completion port. -/
abbrev Overlapped : Type := Nat

/-- The fields of `uv_loop_t` used by `core.c`. `pending_reqs` models the
queue headed by `pending_reqs_tail` (empty list = `NULL`); the three phase
lists model `idle_handles` / `prepare_handles` / `check_handles`; `timers`
holds the registered timer deadlines; `time` is the clock snapshot; `refs`
is the signed reference count; `last_err` models `loop->last_err`. -/
structure LoopState where
  refs : Int
  pending_reqs : List Req
  endgame_handles : List Handle
  idle_handles : List Handle
  prepare_handles : List Handle
  check_handles : List Handle
  timers : List Nat
  time : Nat
  last_err : Nat
deriving DecidableEq

/-- The Windows `WAIT_TIMEOUT` error code (258). -/
def WAIT_TIMEOUT : Nat := 258

/-- The Windows `INFINITE` timeout value (`(DWORD)-1`). -/
def INFINITE : Nat := 4294967295

/-- A fatal escalation (`uv_fatal_error(code, op)`): the OS error code and the
name of the failing operation. An `Except.error` carrying this value models
immediate process termination. -/
structure FatalError where
  code : Nat
  op : String
deriving DecidableEq

/-- External collaborators of `core.c`, as arbitrary functions: the routines
called by the tick macro and the poll strategies that are implemented outside
this source file. Callbacks may mutate any loop field, including `refs`. -/
structure Hooks where
  update_time : LoopState → LoopState
  process_timers : LoopState → LoopState
  idle_invoke : LoopState → LoopState
  process_reqs : LoopState → LoopState
  process_endgames : LoopState → LoopState
  prepare_invoke : LoopState → LoopState
  check_invoke : LoopState → LoopState
  getPollTimeout : LoopState → Nat
  overlapped_to_req : Overlapped → Req

/-- Modelled from the spec: `uv_insert_pending_req` is implemented outside
`core.c`; the spec says the poller "appends it to the pending-request queue"
(FIFO), so insertion is appending at the tail. -/
def uv_insert_pending_req (l : LoopState) (r : Req) : LoopState :=
  { l with pending_reqs := l.pending_reqs ++ [r] }

/-- Modelled from the spec: the Timer Store hook `earliest_deadline`; `core.c`
only needs a well-defined earliest deadline of the registered timers
(`none` when no timers are registered). -/
def earliest_deadline : List Nat → Option Nat
  | [] => none
  | d :: ds =>
    match earliest_deadline ds with
    | none => some d
    | some e => some (min d e)

/-- Modelled from the spec: `uv_get_poll_timeout` is not part of `core.c`; the
spec describes it as "the duration until the nearest timer deadline (zero if a
timer has already expired, infinite if no timers are registered)". -/
def uv_get_poll_timeout (l : LoopState) : Nat :=
  match earliest_deadline l.timers with
  | none => INFINITE
  | some d => if d ≤ l.time then 0 else d - l.time

/-- The timeout handed to the completion-retrieval call: `core.c` computes
`timeout = block ? uv_get_poll_timeout(loop) : 0` in both strategies. -/
def pollTimeout (getTimeout : LoopState → Nat) (l : LoopState) (block : Bool) : Nat :=
  if block then getTimeout l else 0

/-- Outcome of one `GetQueuedCompletionStatus` call: either an `OVERLAPPED`
packet was dequeued (`overlapped != NULL`, regardless of the BOOL result), or
nothing was dequeued and `GetLastError()` returned the given code. -/
inductive GQCSResult where
  | dequeued (ov : Overlapped)
  | empty (lastError : Nat)
deriving DecidableEq

/-- Outcome of one `pGetQueuedCompletionStatusEx` call: success with the
dequeued entries in substrate order, or failure with `GetLastError()`. -/
inductive GQCSExResult where
  | success (entries : List Overlapped)
  | failure (lastError : Nat)
deriving DecidableEq

/-- How `uv_poll` handles the substrate outcome (`core.c` lines 172-181): a
dequeued packet is mapped back to its request and appended to the pending
queue; otherwise a `WAIT_TIMEOUT` is absorbed and any other error escalates
fatally naming `GetQueuedCompletionStatus`. -/
def uv_poll_dispatch (h : Hooks) (l : LoopState) : GQCSResult → Except FatalError LoopState
  | .dequeued ov => .ok (uv_insert_pending_req l (h.overlapped_to_req ov))
  | .empty lastError =>
    if lastError = WAIT_TIMEOUT then .ok l
    else .error ⟨lastError, "GetQueuedCompletionStatus"⟩

/-- The single-retrieval strategy `uv_poll` (`core.c` lines 153-182): compute
the timeout, call the substrate once with it, dispatch the outcome. -/
def uv_poll (h : Hooks) (l : LoopState) (block : Bool)
    (substrate : Nat → GQCSResult) : Except FatalError LoopState :=
  uv_poll_dispatch h l (substrate (pollTimeout h.getPollTimeout l block))

/-- How `uv_poll_ex` handles the substrate outcome (`core.c` lines 207-216):
on success every dequeued entry is mapped to its request and appended to the
pending queue in substrate order; otherwise a `WAIT_TIMEOUT` is absorbed and
any other error escalates fatally naming `GetQueuedCompletionStatusEx`. -/
def uv_poll_ex_dispatch (h : Hooks) (l : LoopState) : GQCSExResult → Except FatalError LoopState
  | .success entries =>
    .ok (entries.foldl (fun acc ov => uv_insert_pending_req acc (h.overlapped_to_req ov)) l)
  | .failure lastError =>
    if lastError = WAIT_TIMEOUT then .ok l
    else .error ⟨lastError, "GetQueuedCompletionStatusEx"⟩

/-- The batch-retrieval strategy `uv_poll_ex` (`core.c` lines 185-217): the
on-stack buffer holds `ARRAY_SIZE(overlappeds) = 128` entries, so the
substrate is called with capacity 128 and the computed timeout. -/
def uv_poll_ex (h : Hooks) (l : LoopState) (block : Bool)
    (substrate : Nat → Nat → GQCSExResult) : Except FatalError LoopState :=
  uv_poll_ex_dispatch h l (substrate 128 (pollTimeout h.getPollTimeout l block))

/-- Strategy selection: `uv_run_once` / `uv_run` pick `uv_poll_ex` when
`pGetQueuedCompletionStatusEx` is available and `uv_poll` otherwise. -/
def runPoll (h : Hooks) (hasEx : Bool) (sub : Nat → GQCSResult)
    (subEx : Nat → Nat → GQCSExResult) (l : LoopState) (block : Bool) :
    Except FatalError LoopState :=
  if hasEx then uv_poll_ex h l block subEx else uv_poll h l block sub

/-- Observations of one pass through `UV_LOOP_ONCE`: the state at the
idle-condition check (after `uv_update_time` and `uv_process_timers`), whether
`uv_idle_invoke` was called, whether the `refs <= 0` break was taken, and - when
the poll step was reached - the state at the moment of the poll call and the
block argument passed to the strategy. -/
structure TickTrace where
  afterTimers : LoopState
  idleInvoked : Bool
  broke : Bool
  prePoll : Option LoopState
  pollBlock : Option Bool
deriving DecidableEq

/-- The `UV_LOOP_ONCE` macro (`core.c` lines 219-245), instrumented with a
`TickTrace`. Steps in source order: refresh clock, expire timers, invoke the
idle phase iff both the pending-request queue and the endgame queue are empty,
process requests, process endgames, break if `refs <= 0`, invoke the prepare
phase, poll with `block = (idle_handles == NULL && pending_reqs_tail == NULL
&& endgame_handles == NULL && refs > 0)`, invoke the check phase. -/
def uv_loop_once (h : Hooks) (hasEx : Bool) (sub : Nat → GQCSResult)
    (subEx : Nat → Nat → GQCSExResult) (l : LoopState) :
    TickTrace × Except FatalError LoopState :=
  let l1 := h.update_time l
  let l2 := h.process_timers l1
  let idleCond := l2.pending_reqs.isEmpty && l2.endgame_handles.isEmpty
  let l3 := if idleCond then h.idle_invoke l2 else l2
  let l4 := h.process_reqs l3
  let l5 := h.process_endgames l4
  if l5.refs ≤ 0 then
    ({ afterTimers := l2, idleInvoked := idleCond, broke := true,
       prePoll := none, pollBlock := none }, .ok l5)
  else
    let l6 := h.prepare_invoke l5
    let block := l6.idle_handles.isEmpty && l6.pending_reqs.isEmpty &&
                 l6.endgame_handles.isEmpty && decide (0 < l6.refs)
    let tr : TickTrace :=
      { afterTimers := l2, idleInvoked := idleCond, broke := false,
        prePoll := some l6, pollBlock := some block }
    match runPoll h hasEx sub subEx l6 block with
    | .error e => (tr, .error e)
    | .ok l7 => (tr, .ok (h.check_invoke l7))

/-- `uv_run_once` (`core.c` lines 253-260): one `UV_LOOP_ONCE` pass with the
selected strategy, then `return 0`. -/
def uv_run_once (h : Hooks) (hasEx : Bool) (sub : Nat → GQCSResult)
    (subEx : Nat → Nat → GQCSExResult) (l : LoopState) :
    Except FatalError (LoopState × Int) :=
  match (uv_loop_once h hasEx sub subEx l).2 with
  | .error e => .error e
  | .ok lf => .ok (lf, 0)

/-- The `UV_LOOP` macro (`core.c` lines 247-250): repeat `UV_LOOP_ONCE` while
`refs > 0`; the `break` inside the tick ends the run. `fuel` bounds the number
of iterations examined: `some` final state means the while loop exited within
`fuel` ticks, `none` means it was still running. -/
def uv_runAux (h : Hooks) (hasEx : Bool) (sub : Nat → GQCSResult)
    (subEx : Nat → Nat → GQCSExResult) : Nat → LoopState →
    Except FatalError (Option LoopState)
  | 0, _ => .ok none
  | fuel + 1, l =>
    if 0 < l.refs then
      match (uv_loop_once h hasEx sub subEx l).2 with
      | .error e => .error e
      | .ok l2 =>
        if (uv_loop_once h hasEx sub subEx l).1.broke then .ok (some l2)
        else uv_runAux h hasEx sub subEx fuel l2
    else .ok (some l)

/-- `uv_run` (`core.c` lines 263-272): run `UV_LOOP` with the selected
strategy, then `return 0` (the exit assertion `loop->refs == 0` is the subject
of a claim, not baked into the model). -/
def uv_run (h : Hooks) (hasEx : Bool) (sub : Nat → GQCSResult)
    (subEx : Nat → Nat → GQCSExResult) (fuel : Nat) (l : LoopState) :
    Except FatalError (Option (LoopState × Int)) :=
  match uv_runAux h hasEx sub subEx fuel l with
  | .error e => .error e
  | .ok none => .ok none
  | .ok (some lf) => .ok (some (lf, 0))

/-- `uv_loop_refcount` (`core.c` lines 138-140). -/
def uv_loop_refcount (l : LoopState) : Int := l.refs

/-- `uv_ref` (`core.c` lines 143-145): `loop->refs++`. -/
def uv_ref (l : LoopState) : LoopState := { l with refs := l.refs + 1 }

/-- `uv_unref` (`core.c` lines 148-150): `loop->refs--`. -/
def uv_unref (l : LoopState) : LoopState := { l with refs := l.refs - 1 }

/-- Identity of a loop object: the static `uv_default_loop_` or a
heap-allocated loop returned by `uv_loop_new`. -/
inductive LoopRef where
  | defaultLoop
  | heap (id : Nat)
deriving DecidableEq

/-- Process-wide resource state for the lifecycle functions: whether the
`uv_init_guard_` bootstrap ran, whether `uv_default_loop_init_guard_` ran, the
ids of live heap allocations made by `uv_loop_new`, the owners of I/O
completion ports opened by `CreateIoCompletionPort`, and the next heap id. -/
structure World where
  bootstrapDone : Bool
  defaultLoopReady : Bool
  heapLoops : List Nat
  openChannels : List LoopRef
  nextId : Nat
deriving DecidableEq

/-- The resource effect of `uv_loop_init` (`core.c` lines 61-96): it opens an
I/O completion port for the loop (its other statements initialize fields of
the loop record and create no process-wide resource). -/
def uv_loop_init_w (w : World) (r : LoopRef) : World :=
  { w with openChannels := r :: w.openChannels }

/-- The `uv_init` bootstrap effect (`core.c` lines 42-58) behind
`uv_once(&uv_init_guard_, uv_init)`: runs at most once per process. -/
def uv_init_once_w (w : World) : World :=
  if w.bootstrapDone then w else { w with bootstrapDone := true }

/-- `uv_default_loop` (`core.c` lines 108-111): run the one-time default-loop
bootstrap (`uv_default_loop_init`, lines 99-105, which runs `uv_init` then
`uv_loop_init(&uv_default_loop_)`), then return `&uv_default_loop_`. -/
def uv_default_loop_w (w : World) : World × LoopRef :=
  if w.defaultLoopReady then (w, .defaultLoop)
  else
    let w1 := uv_init_once_w w
    let w2 := uv_loop_init_w w1 .defaultLoop
    ({ w2 with defaultLoopReady := true }, .defaultLoop)

/-- `uv_loop_new` (`core.c` lines 114-128): run `uv_init` once, `malloc` a
fresh loop, run `uv_loop_init` on it (the allocation-failure path escalates
fatally and is not a return path). -/
def uv_loop_new_w (w : World) : World × LoopRef :=
  let w1 := uv_init_once_w w
  let w2 := { w1 with nextId := w1.nextId + 1, heapLoops := w1.nextId :: w1.heapLoops }
  (uv_loop_init_w w2 (.heap w1.nextId), .heap w1.nextId)

/-- `uv_loop_delete` (`core.c` lines 131-135): `if (loop != &uv_default_loop_)
free(loop);` - the heap allocation is released; no other statement runs, so no
completion port is closed and nothing happens for the default loop. -/
def uv_loop_delete_w (w : World) (r : LoopRef) : World :=
  match r with
  | .defaultLoop => w
  | .heap id => { w with heapLoops := w.heapLoops.erase id }

/-- A loop state with every queue empty, no timers, and reference count 0:
the state produced by `uv_loop_init` (with clock snapshot 0). -/
def emptyLoop : LoopState :=
  { refs := 0, pending_reqs := [], endgame_handles := [], idle_handles := [],
    prepare_handles := [], check_handles := [], timers := [], time := 0, last_err := 0 }

/-- Concrete collaborator behavior where every callback leaves the loop
unchanged, the poll timeout is the spec-modelled timer hook, and the
`CONTAINING_RECORD` map sends an `OVERLAPPED*` to its request. -/
def idHooks : Hooks :=
  { update_time := id, process_timers := id, idle_invoke := id, process_reqs := id,
    process_endgames := id, prepare_invoke := id, check_invoke := id,
    getPollTimeout := uv_get_poll_timeout, overlapped_to_req := fun ov => ⟨ov⟩ }

/-- Substrate behavior for the single strategy: nothing dequeued, wait timed
out. -/
def subW : Nat → GQCSResult := fun _ => GQCSResult.empty WAIT_TIMEOUT

/-- Substrate behavior for the batch strategy: the call failed with
`WAIT_TIMEOUT`. -/
def subExW : Nat → Nat → GQCSExResult := fun _ _ => GQCSExResult.failure WAIT_TIMEOUT

theorem ref_iterate_refs (n : Nat) (l : LoopState) :
    (uv_ref^[n] l).refs = l.refs + n := by
  induction n generalizing l with
  | zero => simp
  | succ k ih =>
    rw [Function.iterate_succ_apply, ih]
    simp [uv_ref]
    ring

theorem unref_iterate_refs (n : Nat) (l : LoopState) :
    (uv_unref^[n] l).refs = l.refs - n := by
  induction n generalizing l with
  | zero => simp
  | succ k ih =>
    rw [Function.iterate_succ_apply, ih]
    simp [uv_unref]
    ring

/-- Claim C9: for every loop, every natural number N, and every starting
reference count, N `uv_ref` calls followed by N `uv_unref` calls return the
reference count, as read by `uv_loop_refcount`, to its starting value. -/
theorem c9_ref_unref_inverse (n : Nat) (l : LoopState) :
    uv_loop_refcount (uv_unref^[n] (uv_ref^[n] l)) = uv_loop_refcount l := by
  simp [uv_loop_refcount, unref_iterate_refs, ref_iterate_refs]

/-- Claim C8: `uv_loop_delete` on the default loop frees nothing and changes
no state at all (the world is returned untouched), and every call to
`uv_default_loop`, first or later, returns the same shared instance
`&uv_default_loop_`. -/
theorem c8_default_delete_noop (w w2 : World) :
    uv_loop_delete_w w .defaultLoop = w ∧ (uv_default_loop_w w2).2 = .defaultLoop := by
  refine ⟨rfl, ?_⟩
  unfold uv_default_loop_w
  split <;> rfl

/-- A world with completed bootstrap, a live default loop, and one live heap
loop (id 7) whose completion port is open. -/
def w0 : World :=
  { bootstrapDone := true, defaultLoopReady := true, heapLoops := [7],
    openChannels := [.heap 7, .defaultLoop], nextId := 8 }

/-- Counterexample to claim C4: deleting the non-default loop `heap 7` frees
its allocation, yet its completion channel is still open afterwards -
`uv_loop_delete` contains no `CloseHandle` for `loop->iocp`, so the channel is
not destroyed with the loop. -/
theorem c4_counterexample :
    LoopRef.heap 7 ∈ (uv_loop_delete_w w0 (.heap 7)).openChannels ∧
    7 ∉ (uv_loop_delete_w w0 (.heap 7)).heapLoops := by decide

/-- Claim C4 (amended): for every non-default loop, `uv_loop_delete` releases
the loop's heap allocation, but it does not close the completion channel that
`uv_loop_init` opened at construction; the set of open channels is unchanged
by deletion. -/
theorem c4_delete_frees_allocation_not_channel (w : World) (id : Nat) :
    (uv_loop_delete_w w (.heap id)).heapLoops = w.heapLoops.erase id ∧
    (uv_loop_delete_w w (.heap id)).openChannels = w.openChannels ∧
    (uv_loop_init_w w (.heap id)).openChannels = .heap id :: w.openChannels :=
  ⟨rfl, rfl, rfl⟩

/-- Claim C2: for either polling strategy, a completion wait that ends in a
plain `WAIT_TIMEOUT` leaves the loop state unchanged and the poll returns
normally, while any other failure code of the completion-retrieval call
escalates fatally with that OS error code and the name of the failing
operation. -/
theorem c2_timeout_absorbed_other_fatal (h : Hooks) (l : LoopState) (block : Bool)
    (e : Nat) (sub : Nat → GQCSResult) (subEx : Nat → Nat → GQCSExResult)
    (hs : sub (pollTimeout h.getPollTimeout l block) = GQCSResult.empty e)
    (hx : subEx 128 (pollTimeout h.getPollTimeout l block) = GQCSExResult.failure e) :
    (e = WAIT_TIMEOUT →
      uv_poll h l block sub = .ok l ∧ uv_poll_ex h l block subEx = .ok l)
    ∧ (e ≠ WAIT_TIMEOUT →
      uv_poll h l block sub = .error ⟨e, "GetQueuedCompletionStatus"⟩ ∧
      uv_poll_ex h l block subEx = .error ⟨e, "GetQueuedCompletionStatusEx"⟩) := by
  unfold uv_poll uv_poll_ex
  rw [hs, hx]
  constructor
  · intro he
    subst he
    simp [uv_poll_dispatch, uv_poll_ex_dispatch]
  · intro he
    simp [uv_poll_dispatch, uv_poll_ex_dispatch, he]

/-- Witness for C2: with a substrate that reports `WAIT_TIMEOUT`, both
strategies return the loop unchanged. -/
theorem c2_timeout_absorbed_other_fatal_witness :
    uv_poll idHooks emptyLoop false subW = .ok emptyLoop ∧
    uv_poll_ex idHooks emptyLoop false subExW = .ok emptyLoop :=
  (c2_timeout_absorbed_other_fatal idHooks emptyLoop false WAIT_TIMEOUT subW subExW
    rfl rfl).1 rfl

/-- Claim C6: in must-not-block mode the timeout handed to the
completion-retrieval call is zero regardless of timers; in may-block mode it
is the value supplied by the timer-store hook `uv_get_poll_timeout`, which is
zero when a registered deadline has already passed, the duration until the
nearest deadline otherwise, and `INFINITE` when no timers are registered. -/
theorem c6_timeout_computation (h : Hooks) (l : LoopState)
    (sub : Nat → GQCSResult) (subEx : Nat → Nat → GQCSExResult)
    (hg : h.getPollTimeout = uv_get_poll_timeout) :
    (pollTimeout h.getPollTimeout l false = 0 ∧
     uv_poll h l false sub = uv_poll_dispatch h l (sub 0) ∧
     uv_poll_ex h l false subEx = uv_poll_ex_dispatch h l (subEx 128 0))
    ∧ (pollTimeout h.getPollTimeout l true = uv_get_poll_timeout l ∧
       uv_poll h l true sub = uv_poll_dispatch h l (sub (uv_get_poll_timeout l)) ∧
       uv_poll_ex h l true subEx = uv_poll_ex_dispatch h l (subEx 128 (uv_get_poll_timeout l)))
    ∧ (l.timers = [] → uv_get_poll_timeout l = INFINITE)
    ∧ (∀ d, earliest_deadline l.timers = some d → d ≤ l.time →
        uv_get_poll_timeout l = 0)
    ∧ (∀ d, earliest_deadline l.timers = some d → l.time < d →
        uv_get_poll_timeout l = d - l.time) := by
  have hpt1 : pollTimeout h.getPollTimeout l true = uv_get_poll_timeout l := by
    simp [pollTimeout, hg]
  refine ⟨⟨rfl, rfl, rfl⟩,
    ⟨hpt1, by simp only [uv_poll, hpt1], by simp only [uv_poll_ex, hpt1]⟩,
    ?_, ?_, ?_⟩
  · intro ht
    simp [uv_get_poll_timeout, ht, earliest_deadline]
  · intro d hd hle
    simp [uv_get_poll_timeout, hd, hle]
  · intro d hd hlt
    simp only [uv_get_poll_timeout, hd]
    rw [if_neg]
    omega

/-- Witness for C6: on a loop with no timers, the non-blocking timeout is 0
and the timer hook reports `INFINITE`. -/
theorem c6_timeout_computation_witness :
    pollTimeout idHooks.getPollTimeout emptyLoop false = 0 ∧
    uv_get_poll_timeout emptyLoop = INFINITE := by
  have hthm := c6_timeout_computation idHooks emptyLoop subW subExW rfl
  exact ⟨hthm.1.1, hthm.2.2.1 rfl⟩

theorem foldl_insert_pending (h : Hooks) (entries : List Overlapped) (l : LoopState) :
    entries.foldl (fun acc ov => uv_insert_pending_req acc (h.overlapped_to_req ov)) l =
      { l with pending_reqs := l.pending_reqs ++ entries.map h.overlapped_to_req } := by
  induction entries generalizing l with
  | nil => simp
  | cons x xs ih =>
    rw [List.foldl_cons, ih]
    simp [uv_insert_pending_req]

/-- Claim C7: a successful batch-retrieval call dequeues at most 128
completions (the substrate is called with the on-stack capacity 128, whose
contract bounds the returned count) and appends each retrieved completion's
request to the pending-request queue in substrate order. -/
theorem c7_batch_capacity_and_order (h : Hooks) (l : LoopState) (block : Bool)
    (subEx : Nat → Nat → GQCSExResult) (entries : List Overlapped)
    (hcap : entries.length ≤ 128)
    (hsub : subEx 128 (pollTimeout h.getPollTimeout l block) = GQCSExResult.success entries) :
    uv_poll_ex h l block subEx =
      .ok { l with pending_reqs := l.pending_reqs ++ entries.map h.overlapped_to_req }
    ∧ (entries.map h.overlapped_to_req).length ≤ 128 := by
  constructor
  · unfold uv_poll_ex
    rw [hsub]
    simp [uv_poll_ex_dispatch, foldl_insert_pending]
  · simpa using hcap

/-- Witness for C7: a batch of two completions is appended in order. -/
theorem c7_batch_capacity_and_order_witness :
    uv_poll_ex idHooks emptyLoop false (fun _ _ => GQCSExResult.success [0, 1]) =
      .ok { emptyLoop with pending_reqs :=
        emptyLoop.pending_reqs ++ [0, 1].map idHooks.overlapped_to_req }
    ∧ ([0, 1].map idHooks.overlapped_to_req).length ≤ 128 :=
  c7_batch_capacity_and_order idHooks emptyLoop false
    (fun _ _ => GQCSExResult.success [0, 1]) [0, 1] (by decide) rfl

theorem loop_once_pollBlock_eq (h : Hooks) (hasEx : Bool) (sub : Nat → GQCSResult)
    (subEx : Nat → Nat → GQCSExResult) (l : LoopState) :
    (uv_loop_once h hasEx sub subEx l).1.pollBlock =
      (uv_loop_once h hasEx sub subEx l).1.prePoll.map
        (fun s => s.idle_handles.isEmpty && s.pending_reqs.isEmpty &&
                  s.endgame_handles.isEmpty && decide (0 < s.refs)) := by
  unfold uv_loop_once
  dsimp only
  repeat' split
  all_goals rfl

/-- Claim C1 (amended): whenever a tick reaches the poll call, the strategy is
invoked in blocking mode exactly when the idle set, the pending-request queue,
and the endgame queue are all empty AND the reference count is positive at the
moment of that call; it is invoked in non-blocking mode otherwise (so a
non-empty set forces non-blocking, but so does a non-positive reference count
produced by a prepare-phase callback). -/
theorem c1_poll_block_mode (h : Hooks) (hasEx : Bool) (sub : Nat → GQCSResult)
    (subEx : Nat → Nat → GQCSExResult) (l s : LoopState) (b : Bool)
    (hp : (uv_loop_once h hasEx sub subEx l).1.prePoll = some s)
    (hb : (uv_loop_once h hasEx sub subEx l).1.pollBlock = some b) :
    b = true ↔ (s.idle_handles = [] ∧ s.pending_reqs = [] ∧
      s.endgame_handles = [] ∧ 0 < s.refs) := by
  have hmap := loop_once_pollBlock_eq h hasEx sub subEx l
  rw [hb, hp] at hmap
  simp only [Option.map_some', Option.some_inj] at hmap
  subst hmap
  simp [List.isEmpty_iff, and_assoc]

/-- A loop with one keep-alive reference and nothing else. -/
def loopOneRef : LoopState := { emptyLoop with refs := 1 }

/-- Witness for C1: with identity callbacks a tick on `loopOneRef` reaches the
poll with everything empty and `refs = 1`, and the poll blocks. -/
theorem c1_poll_block_mode_witness :
    true = true ↔ (loopOneRef.idle_handles = [] ∧ loopOneRef.pending_reqs = [] ∧
      loopOneRef.endgame_handles = [] ∧ 0 < loopOneRef.refs) :=
  c1_poll_block_mode idHooks false subW subExW loopOneRef loopOneRef true rfl rfl

/-- Collaborator behavior whose prepare-phase callback drops the last
keep-alive reference (`uv_unref` from a prepare handle). -/
def unrefPrepareHooks : Hooks := { idHooks with prepare_invoke := uv_unref }

/-- A loop with everything empty and reference count 0. -/
def loopZeroRef : LoopState := { emptyLoop with refs := 0 }

/-- Counterexample to claim C1 as stated: on a tick of `loopOneRef` whose
prepare-phase callback unrefs the loop, the poll call is reached with the idle
set, the pending-request queue, and the endgame queue all empty - so the claim
predicts blocking mode - yet the poller is invoked in non-blocking mode,
because `refs > 0` is part of the block condition and the prepare callback
made the count 0. -/
theorem c1_counterexample :
    (uv_loop_once unrefPrepareHooks false subW subExW loopOneRef).1.prePoll =
      some loopZeroRef ∧
    (uv_loop_once unrefPrepareHooks false subW subExW loopOneRef).1.pollBlock =
      some false ∧
    loopZeroRef.idle_handles = [] ∧ loopZeroRef.pending_reqs = [] ∧
    loopZeroRef.endgame_handles = [] := by
  refine ⟨rfl, rfl, rfl, rfl, rfl⟩

/-- Claim C5: in every tick, and for every behavior of the registered
callbacks, the idle phase is invoked if and only if both the pending-request
queue and the endgame queue are empty at the start of that check (after the
clock refresh and timer expiry of that tick, before request and endgame
processing). -/
theorem c5_idle_iff_no_work (h : Hooks) (hasEx : Bool) (sub : Nat → GQCSResult)
    (subEx : Nat → Nat → GQCSExResult) (l : LoopState) :
    (uv_loop_once h hasEx sub subEx l).1.idleInvoked = true ↔
      ((uv_loop_once h hasEx sub subEx l).1.afterTimers.pending_reqs = [] ∧
       (uv_loop_once h hasEx sub subEx l).1.afterTimers.endgame_handles = []) := by
  unfold uv_loop_once
  dsimp only
  repeat' split
  all_goals simp [List.isEmpty_iff]

theorem loop_once_broke_refs (h : Hooks) (hasEx : Bool) (sub : Nat → GQCSResult)
    (subEx : Nat → Nat → GQCSExResult) (l : LoopState) :
    ∀ l2, (uv_loop_once h hasEx sub subEx l).1.broke = true →
      (uv_loop_once h hasEx sub subEx l).2 = .ok l2 → l2.refs ≤ 0 := by
  unfold uv_loop_once
  dsimp only
  repeat' split
  all_goals intro l2 hbr hok
  all_goals simp_all

theorem runAux_final_refs (h : Hooks) (hasEx : Bool) (sub : Nat → GQCSResult)
    (subEx : Nat → Nat → GQCSExResult) (fuel : Nat) :
    ∀ l lf, uv_runAux h hasEx sub subEx fuel l = .ok (some lf) → lf.refs ≤ 0 := by
  induction fuel with
  | zero =>
    intro l lf hl
    simp [uv_runAux] at hl
  | succ k ih =>
    intro l lf hl
    unfold uv_runAux at hl
    split at hl
    · split at hl
      · simp at hl
      · next l2 hok =>
        split at hl
        · next hbr =>
          cases hl
          exact loop_once_broke_refs h hasEx sub subEx l _ hbr hok
        · exact ih l2 lf hl
    · next hpos =>
      cases hl
      omega

/-- Claim C3 (amended): for every loop and every behavior of the registered
callbacks, when `uv_run` returns its loop has reference count at most 0; the
count is not always exactly 0 (callbacks may drive it negative, in which case
the `assert(loop->refs == 0)` at the exit of `uv_run` fails), so only the
non-positivity bound holds universally. -/
theorem c3_run_final_refcount (h : Hooks) (hasEx : Bool) (sub : Nat → GQCSResult)
    (subEx : Nat → Nat → GQCSExResult) (fuel : Nat) (l lf : LoopState) (r : Int)
    (hr : uv_run h hasEx sub subEx fuel l = .ok (some (lf, r))) :
    lf.refs ≤ 0 := by
  unfold uv_run at hr
  split at hr
  · simp at hr
  · simp at hr
  · next lg hg =>
    have hle := runAux_final_refs h hasEx sub subEx fuel l lg hg
    have heq : lg = lf ∧ 0 = r := by simpa using hr
    rw [heq.1] at hle
    exact hle

/-- Witness for C3 (amended): running a loop whose reference count is already
0 returns at once with that loop, whose count is at most 0. -/
theorem c3_run_final_refcount_witness : emptyLoop.refs ≤ 0 :=
  c3_run_final_refcount idHooks false subW subExW 1 emptyLoop emptyLoop 0 rfl

/-- Collaborator behavior whose timer callbacks drop two keep-alive
references in one expiry pass (two `uv_unref` calls). -/
def doubleUnrefHooks : Hooks :=
  { idHooks with process_timers := fun l => uv_unref (uv_unref l) }

/-- A loop with everything empty and reference count -1. -/
def loopNegRef : LoopState := { emptyLoop with refs := -1 }

/-- Counterexample to claim C3 as stated: starting `uv_run` on a loop with one
reference whose timer callback unrefs twice, the run returns with reference
count -1, not 0 - the exit assertion `loop->refs == 0` does not hold for every
callback behavior. -/
theorem c3_counterexample :
    uv_run doubleUnrefHooks false subW subExW 2 loopOneRef =
      .ok (some (loopNegRef, 0)) ∧ loopNegRef.refs ≠ 0 := by
  refine ⟨rfl, by decide⟩

/-- Claim C10: whenever `uv_run_once` returns, and whenever `uv_run` returns,
the returned status value is 0; no error is ever signalled through the return
value (failures in scope escalate fatally instead). -/
theorem c10_return_status_zero (h : Hooks) (hasEx : Bool) (sub : Nat → GQCSResult)
    (subEx : Nat → Nat → GQCSExResult) (fuel : Nat) (l l2 : LoopState)
    (p q : LoopState × Int)
    (h1 : uv_run_once h hasEx sub subEx l = .ok p)
    (h2 : uv_run h hasEx sub subEx fuel l2 = .ok (some q)) :
    p.2 = 0 ∧ q.2 = 0 := by
  constructor
  · unfold uv_run_once at h1
    split at h1
    · simp at h1
    · cases h1
      rfl
  · unfold uv_run at h2
    split at h2
    · simp at h2
    · simp at h2
    · cases h2
      rfl

/-- Witness for C10: concrete runs of `uv_run_once` and `uv_run` both return
status 0. -/
theorem c10_return_status_zero_witness :
    (emptyLoop, (0 : Int)).2 = 0 ∧ (emptyLoop, (0 : Int)).2 = 0 :=
  c10_return_status_zero idHooks false subW subExW 1 emptyLoop emptyLoop
    (emptyLoop, 0) (emptyLoop, 0) rfl rfl
